import Mathlib

/-!
Verification of the diagnostic-message subsystem (`Source/cmMessenger.cxx`).

The embedding follows the source file function by function:
`ConvertMessageType`, `IsMessageTypeVisible`, `printMessagePreamble`,
`getMessageColor`, `printMessageText`, `displayMessage`, `IssueMessage`
and `DisplayMessage`.  External collaborators (backtrace, word-wrap
formatter, native stack capture, output sink) are modelled by the data
they contribute: the backtrace by the two strings it appends, the stack
capture by an optional string, and the sink by a list of emitted events
(error-flag sets and message writes) so that ordering and the effect on
the process-wide error flag stay observable.
-/

/-- The closed severity enumeration used by the messenger
(`MessageType` in the source). -/
inductive MessageType where
  | AUTHOR_WARNING
  | AUTHOR_ERROR
  | FATAL_ERROR
  | INTERNAL_ERROR
  | LOG
  | WARNING
  | DEPRECATION_ERROR
  | DEPRECATION_WARNING
deriving DecidableEq, Fintype, Repr

/-- Terminal foreground colors used for message display
(`cmsysTerminal_Color_*` constants in the source). -/
inductive Color where
  | Red
  | Yellow
  | Normal
deriving DecidableEq, Repr

/-- Display metadata attached to a dispatched message
(`cmMessageMetadata` in the source). -/
structure cmMessageMetadata where
  desiredColor : Color
  title : String
deriving DecidableEq, Repr

/-- Observable effects on the output sink: setting the process-wide
error flag (`cmSystemTools::SetErrorOccured`) and writing a message
(`cmSystemTools::Message`). -/
inductive SinkEvent where
  | setErrorOccured : SinkEvent
  | message : String → cmMessageMetadata → SinkEvent
deriving DecidableEq, Repr

/-- Modelled from the spec: the backtrace collaborator
(`cmListFileBacktrace`, external to this core) exposes a title rendering
of the immediate context and a full call-stack rendering, both
append-only and possibly empty; each is modelled by the string it
appends. -/
structure cmListFileBacktrace where
  titleText : String
  callStackText : String
deriving DecidableEq, Repr

/-- The messenger's configuration: four read-only booleans, accessed in
the source through the getters `GetDevWarningsAsErrors`,
`GetSuppressDevWarnings`, `GetDeprecatedWarningsAsErrors` and
`GetSuppressDeprecatedWarnings`. -/
structure cmMessenger where
  devWarningsAsErrors : Bool
  suppressDevWarnings : Bool
  deprecatedWarningsAsErrors : Bool
  suppressDeprecatedWarnings : Bool
deriving DecidableEq, Fintype, Repr

/-- `cmMessenger::ConvertMessageType`: escalation/demotion of the
developer and deprecation pairs according to the configuration. -/
def cmMessenger.ConvertMessageType (self : cmMessenger) (t : MessageType) : MessageType :=
  if t = MessageType.AUTHOR_WARNING ∨ t = MessageType.AUTHOR_ERROR then
    let warningsAsErrors := self.devWarningsAsErrors
    if warningsAsErrors ∧ t = MessageType.AUTHOR_WARNING then
      MessageType.AUTHOR_ERROR
    else if ¬warningsAsErrors ∧ t = MessageType.AUTHOR_ERROR then
      MessageType.AUTHOR_WARNING
    else t
  else if t = MessageType.DEPRECATION_WARNING ∨ t = MessageType.DEPRECATION_ERROR then
    let warningsAsErrors := self.deprecatedWarningsAsErrors
    if warningsAsErrors ∧ t = MessageType.DEPRECATION_WARNING then
      MessageType.DEPRECATION_ERROR
    else if ¬warningsAsErrors ∧ t = MessageType.DEPRECATION_ERROR then
      MessageType.DEPRECATION_WARNING
    else t
  else t

/-- `cmMessenger::IsMessageTypeVisible`: visibility decision for the
four gated severities; every other severity is visible. -/
def cmMessenger.IsMessageTypeVisible (self : cmMessenger) (t : MessageType) : Bool :=
  if t = MessageType.DEPRECATION_ERROR then
    if !self.deprecatedWarningsAsErrors then false else true
  else if t = MessageType.DEPRECATION_WARNING then
    if self.suppressDeprecatedWarnings then false else true
  else if t = MessageType.AUTHOR_ERROR then
    if !self.devWarningsAsErrors then false else true
  else if t = MessageType.AUTHOR_WARNING then
    if self.suppressDevWarnings then false else true
  else true

/-- `printMessagePreamble`: the message-header label written for each
severity, with the boolean result the source function returns (always
true). -/
def printMessagePreamble (t : MessageType) : Bool × String :=
  (true,
    if t = MessageType.FATAL_ERROR then "CMake Error"
    else if t = MessageType.INTERNAL_ERROR then "CMake Internal Error (please report a bug)"
    else if t = MessageType.LOG then "CMake Debug Log"
    else if t = MessageType.DEPRECATION_ERROR then "CMake Deprecation Error"
    else if t = MessageType.DEPRECATION_WARNING then "CMake Deprecation Warning"
    else if t = MessageType.AUTHOR_WARNING then "CMake Warning (dev)"
    else if t = MessageType.AUTHOR_ERROR then "CMake Error (dev)"
    else "CMake Warning")

/-- `getMessageColor`: desired terminal color per severity. -/
def getMessageColor (t : MessageType) : Color :=
  match t with
  | MessageType.INTERNAL_ERROR => Color.Red
  | MessageType.FATAL_ERROR => Color.Red
  | MessageType.AUTHOR_ERROR => Color.Red
  | MessageType.AUTHOR_WARNING => Color.Yellow
  | MessageType.WARNING => Color.Yellow
  | _ => Color.Normal

/-- Splits a character list at newline characters, accumulating the
current line in reverse. -/
def splitLinesAux : List Char → List Char → List (List Char)
  | [], acc => [acc.reverse]
  | c :: cs, acc =>
      if c = '\n' then acc.reverse :: splitLinesAux cs []
      else splitLinesAux cs (c :: acc)

/-- Modelled from the spec: the external word-wrap formatter
(`cmDocumentationFormatter` with its indent set to two spaces; its
source is not part of this core).  It is a `wrap(text, indent)`
function: every line of the text is emitted prefixed by the indent and
terminated by a newline; wrapping at the terminal width does not affect
the short single-line texts considered here. -/
def formatWrapped (indent : String) (text : String) : String :=
  String.join
    (List.map (fun line => indent ++ String.mk line ++ "\n") (splitLinesAux text.data []))

/-- `printMessageText`: a literal colon-newline followed by the raw text
passed through the 2-space-indenting formatter. -/
def printMessageText (text : String) : String :=
  ":\n" ++ formatWrapped ("  ") text

/-- The suppression hint appended by `displayMessage` for the two
developer severities (empty for every other severity). -/
def suppressionHint (t : MessageType) : String :=
  if t = MessageType.AUTHOR_WARNING then
    "This warning is for project developers.  Use -Wno-dev to suppress it."
  else if t = MessageType.AUTHOR_ERROR then
    "This error is for project developers. Use -Wno-error=dev to suppress it."
  else ""

/-- The captured-stack text appended by `displayMessage`: only for
`INTERNAL_ERROR` with a non-empty capture, with the literal 8-character
token at the front rewritten from the warning marker to a note marker,
and a trailing newline.  `none` models an absent or compiled-out capture
facility. -/
def capturedStackText (t : MessageType) (capturedStack : Option String) : String :=
  if t = MessageType.INTERNAL_ERROR then
    match capturedStack with
    | some stack =>
        if stack = "" then ""
        else
          (if List.isPrefixOf ("WARNING:").data stack.data then "Note:" ++ stack.drop 8
          else stack) ++ "\n"
    | none => ""
  else ""

/-- `displayMessage` (static function): appends the suppression hint,
the terminating blank line and the captured stack, then dispatches to
the sink, setting the process-wide error flag and the title for the
error-class severities. -/
def displayMessage (t : MessageType) (msg : String) (capturedStack : Option String) :
    List SinkEvent :=
  let msg := msg ++ suppressionHint t
  let msg := msg ++ "\n"
  let msg := msg ++ capturedStackText t capturedStack
  if t = MessageType.FATAL_ERROR ∨ t = MessageType.INTERNAL_ERROR ∨
      t = MessageType.DEPRECATION_ERROR ∨ t = MessageType.AUTHOR_ERROR then
    [SinkEvent.setErrorOccured,
      SinkEvent.message msg { desiredColor := getMessageColor t, title := "Error" }]
  else
    [SinkEvent.message msg { desiredColor := getMessageColor t, title := "Warning" }]

/-- `cmMessenger::DisplayMessage`: assembles the text block (preamble,
backtrace title, formatted text, call stack) and hands it to
`displayMessage`. -/
def cmMessenger.DisplayMessage (_self : cmMessenger) (t : MessageType) (text : String)
    (backtrace : cmListFileBacktrace) (capturedStack : Option String) : List SinkEvent :=
  let pre := printMessagePreamble t
  if pre.1 = false then []
  else
    let msg := pre.2
    let msg := msg ++ backtrace.titleText
    let msg := msg ++ printMessageText text
    let msg := msg ++ backtrace.callStackText
    displayMessage t msg capturedStack

/-- `cmMessenger::IssueMessage`: classify first; a changed severity
forces display, otherwise the visibility filter may drop the message. -/
def cmMessenger.IssueMessage (self : cmMessenger) (t : MessageType) (text : String)
    (backtrace : cmListFileBacktrace) (capturedStack : Option String) : List SinkEvent :=
  let tOverride := self.ConvertMessageType t
  let force : Bool := tOverride ≠ t
  let t := if force then tOverride else t
  if !force && !(self.IsMessageTypeVisible t) then []
  else self.DisplayMessage t text backtrace capturedStack

/-- The process-wide error flag after the sink has processed a list of
events: `SetErrorOccured` sets it, nothing in this subsystem clears
it. -/
def runSink (flag : Bool) (events : List SinkEvent) : Bool :=
  List.foldl
    (fun f e =>
      match e with
      | SinkEvent.setErrorOccured => true
      | SinkEvent.message _ _ => f)
    flag events

/-- Number of messages written to the sink in a list of events. -/
def messageCount (events : List SinkEvent) : Nat :=
  List.countP
    (fun e =>
      match e with
      | SinkEvent.message _ _ => true
      | SinkEvent.setErrorOccured => false)
    events

example :
    (cmMessenger.mk true false false false).ConvertMessageType MessageType.AUTHOR_WARNING =
      MessageType.AUTHOR_ERROR := by decide

example :
    (cmMessenger.mk false true false false).IsMessageTypeVisible MessageType.AUTHOR_WARNING =
      false := by decide

theorem runSink_true (events : List SinkEvent) : runSink true events = true := by
  induction events with
  | nil => rfl
  | cons e rest ih =>
      cases e <;> simpa [runSink] using ih

theorem displayMessage_ne_nil (t : MessageType) (msg : String) (cap : Option String) :
    displayMessage t msg cap ≠ [] := by
  unfold displayMessage
  split <;> simp

theorem messageCount_nil : messageCount [] = 0 := rfl

theorem messageCount_displayMessage (t : MessageType) (msg : String) (cap : Option String) :
    messageCount (displayMessage t msg cap) = 1 := by
  unfold displayMessage
  split <;> rfl

theorem printMessagePreamble_fst (t : MessageType) : (printMessagePreamble t).1 = true := rfl

theorem DisplayMessage_eq (m : cmMessenger) (t : MessageType) (text : String)
    (bt : cmListFileBacktrace) (cap : Option String) :
    m.DisplayMessage t text bt cap =
      displayMessage t
        ((printMessagePreamble t).2 ++ bt.titleText ++ printMessageText text ++ bt.callStackText)
        cap := by
  unfold cmMessenger.DisplayMessage
  simp [printMessagePreamble_fst, String.append_assoc]

theorem DisplayMessage_ne_nil (m : cmMessenger) (t : MessageType) (text : String)
    (bt : cmListFileBacktrace) (cap : Option String) :
    m.DisplayMessage t text bt cap ≠ [] := by
  rw [DisplayMessage_eq]
  exact displayMessage_ne_nil _ _ _

theorem messageCount_DisplayMessage (m : cmMessenger) (t : MessageType) (text : String)
    (bt : cmListFileBacktrace) (cap : Option String) :
    messageCount (m.DisplayMessage t text bt cap) = 1 := by
  rw [DisplayMessage_eq]
  exact messageCount_displayMessage _ _ _

/-- C1: the Severity Classifier maps the developer warning to the
developer error when `devWarningsAsErrors` is set, demotes the developer
error when it is not, applies the symmetric rule to the deprecation pair
using `deprecatedWarningsAsErrors`, and returns every other severity
unchanged regardless of configuration. -/
theorem claim_c1 : ∀ (m : cmMessenger) (t : MessageType),
    m.ConvertMessageType t =
      (if t = MessageType.AUTHOR_WARNING ∧ m.devWarningsAsErrors = true then
        MessageType.AUTHOR_ERROR
      else if t = MessageType.AUTHOR_ERROR ∧ m.devWarningsAsErrors = false then
        MessageType.AUTHOR_WARNING
      else if t = MessageType.DEPRECATION_WARNING ∧ m.deprecatedWarningsAsErrors = true then
        MessageType.DEPRECATION_ERROR
      else if t = MessageType.DEPRECATION_ERROR ∧ m.deprecatedWarningsAsErrors = false then
        MessageType.DEPRECATION_WARNING
      else t) := by
  decide

/-- C2: the Visibility Filter shows the deprecation error exactly when
`deprecatedWarningsAsErrors` holds, the deprecation warning exactly when
`suppressDeprecatedWarnings` does not, the developer error exactly when
`devWarningsAsErrors` holds, the developer warning exactly when
`suppressDevWarnings` does not, and always shows the remaining four
severities. -/
theorem claim_c2 : ∀ (m : cmMessenger) (t : MessageType),
    m.IsMessageTypeVisible t =
      (if t = MessageType.DEPRECATION_ERROR then m.deprecatedWarningsAsErrors
      else if t = MessageType.DEPRECATION_WARNING then !m.suppressDeprecatedWarnings
      else if t = MessageType.AUTHOR_ERROR then m.devWarningsAsErrors
      else if t = MessageType.AUTHOR_WARNING then !m.suppressDevWarnings
      else true) := by
  decide

/-- C4: the Severity Classifier is idempotent: re-applying it to its own
output under the same configuration yields the same value. -/
theorem claim_c4 : ∀ (m : cmMessenger) (t : MessageType),
    m.ConvertMessageType (m.ConvertMessageType t) = m.ConvertMessageType t := by
  decide

/-- C5: rendering a plain warning with text "X is deprecated", an empty
backtrace and the 2-space-indenting formatter dispatches exactly the
block "CMake Warning:\n  X is deprecated\n\n": preamble label, literal
colon-newline, indented text, no suppression hint, one trailing blank
line. -/
theorem claim_c5 : ∀ (m : cmMessenger) (cap : Option String),
    m.DisplayMessage MessageType.WARNING ("X is deprecated")
        (cmListFileBacktrace.mk ("") ("")) cap =
      [SinkEvent.message ("CMake Warning:\n  X is deprecated\n\n")
        (cmMessageMetadata.mk Color.Yellow ("Warning"))] := by
  intro m cap
  rfl

/-- C6: for an internal error with a non-empty captured stack, the
appended text is the capture with exactly the leading 8-character
warning token rewritten to the note token (remainder unchanged) plus a
trailing newline — in particular "WARNING: frame0\nframe1" appends
"Note: frame0\nframe1\n"; an empty or absent capture appends nothing,
and no other severity ever appends captured-stack text. -/
theorem claim_c6 :
    capturedStackText MessageType.INTERNAL_ERROR (some ("WARNING: frame0\nframe1")) =
        "Note: frame0\nframe1\n"
    ∧ (∀ s : String, s ≠ "" → List.isPrefixOf ("WARNING:").data s.data = true →
        capturedStackText MessageType.INTERNAL_ERROR (some s) = ("Note:" ++ s.drop 8) ++ "\n")
    ∧ (∀ s : String, s ≠ "" → List.isPrefixOf ("WARNING:").data s.data = false →
        capturedStackText MessageType.INTERNAL_ERROR (some s) = s ++ "\n")
    ∧ capturedStackText MessageType.INTERNAL_ERROR (some ("")) = ""
    ∧ capturedStackText MessageType.INTERNAL_ERROR none = ""
    ∧ (∀ (t : MessageType) (cap : Option String), t ≠ MessageType.INTERNAL_ERROR →
        capturedStackText t cap = "") := by
  refine ⟨by decide, ?_, ?_, rfl, rfl, ?_⟩
  · intro s h1 h2
    simp [capturedStackText, h1, h2]
  · intro s h1 h2
    simp [capturedStackText, h1, h2]
  · intro t cap h
    simp [capturedStackText, h]

theorem claim_c6_witness :
    capturedStackText MessageType.INTERNAL_ERROR (some ("WARNING:x")) =
        ("Note:" ++ ("WARNING:x").drop 8) ++ "\n"
    ∧ capturedStackText MessageType.INTERNAL_ERROR (some ("plain")) = "plain" ++ "\n"
    ∧ capturedStackText MessageType.LOG (some ("x")) = "" :=
  ⟨claim_c6.2.1 ("WARNING:x") (by decide) (by decide),
    claim_c6.2.2.1 ("plain") (by decide) (by decide),
    claim_c6.2.2.2.2.2 MessageType.LOG (some ("x")) (by decide)⟩

/-- C7: every dispatched message carries color Red exactly for
InternalError, FatalError and DeveloperError, Yellow exactly for
DeveloperWarning and Warning, Normal otherwise; title "Error" exactly
for FatalError, InternalError, DeprecationError and DeveloperError and
"Warning" for all others — including Log, whose preamble label is
nevertheless "CMake Debug Log". -/
theorem claim_c7 : ∀ (t : MessageType) (msg : String) (cap : Option String)
      (s : String) (md : cmMessageMetadata),
    SinkEvent.message s md ∈ displayMessage t msg cap →
      md.desiredColor = getMessageColor t
      ∧ (md.desiredColor = Color.Red ↔
          (t = MessageType.INTERNAL_ERROR ∨ t = MessageType.FATAL_ERROR ∨
            t = MessageType.AUTHOR_ERROR))
      ∧ (md.desiredColor = Color.Yellow ↔
          (t = MessageType.AUTHOR_WARNING ∨ t = MessageType.WARNING))
      ∧ (md.title = "Error" ↔
          (t = MessageType.FATAL_ERROR ∨ t = MessageType.INTERNAL_ERROR ∨
            t = MessageType.DEPRECATION_ERROR ∨ t = MessageType.AUTHOR_ERROR))
      ∧ (md.title = "Error" ∨ md.title = "Warning")
      ∧ (t = MessageType.LOG → md.title = "Warning"
          ∧ (printMessagePreamble MessageType.LOG).2 = "CMake Debug Log") := by
  intro t msg cap s md h
  cases t <;> simp [displayMessage] at h <;> obtain ⟨h1, h2⟩ := h <;> subst h2 <;> decide

theorem claim_c7_witness :
    (cmMessageMetadata.mk Color.Red ("Error")).title = "Error" ∨
      (cmMessageMetadata.mk Color.Red ("Error")).title = "Warning" :=
  (claim_c7 MessageType.FATAL_ERROR ("m") none ("m\n")
      (cmMessageMetadata.mk Color.Red ("Error")) (by decide)).2.2.2.2.1

/-- C8: during dispatch the process-wide error flag is set exactly when
the dispatched title is "Error" (exactly the four error-class
severities), the set happens before the write, and neither the dispatch
nor the whole `IssueMessage` pipeline ever clears the flag. -/
theorem claim_c8 : ∀ (t : MessageType) (msg : String) (cap : Option String) (flag : Bool)
      (m : cmMessenger) (text : String) (bt : cmListFileBacktrace),
    ((SinkEvent.setErrorOccured ∈ displayMessage t msg cap) ↔
        (t = MessageType.FATAL_ERROR ∨ t = MessageType.INTERNAL_ERROR ∨
          t = MessageType.DEPRECATION_ERROR ∨ t = MessageType.AUTHOR_ERROR))
    ∧ (∀ (s : String) (md : cmMessageMetadata),
        SinkEvent.message s md ∈ displayMessage t msg cap →
          ((SinkEvent.setErrorOccured ∈ displayMessage t msg cap) ↔ md.title = "Error"))
    ∧ ((SinkEvent.setErrorOccured ∈ displayMessage t msg cap) →
        (displayMessage t msg cap).head? = some SinkEvent.setErrorOccured)
    ∧ (flag = true → runSink flag (displayMessage t msg cap) = true)
    ∧ (flag = true → runSink flag (m.IssueMessage t text bt cap) = true) := by
  intro t msg cap flag m text bt
  refine ⟨?_, ?_, ?_, fun hf => hf ▸ runSink_true _, fun hf => hf ▸ runSink_true _⟩
  · cases t <;> simp [displayMessage]
  · intro s md h
    cases t <;> simp [displayMessage] at h ⊢ <;> obtain ⟨h1, h2⟩ := h <;> subst h2 <;> decide
  · cases t <;> simp [displayMessage]

theorem claim_c8_witness :
    ((SinkEvent.setErrorOccured ∈ displayMessage MessageType.FATAL_ERROR ("m") none) ↔
        (cmMessageMetadata.mk Color.Red ("Error")).title = "Error")
    ∧ (displayMessage MessageType.FATAL_ERROR ("m") none).head? =
        some SinkEvent.setErrorOccured
    ∧ runSink true (displayMessage MessageType.FATAL_ERROR ("m") none) = true :=
  ⟨(claim_c8 MessageType.FATAL_ERROR ("m") none true (cmMessenger.mk false false false false)
        ("m") (cmListFileBacktrace.mk ("") (""))).2.1 ("m\n")
      (cmMessageMetadata.mk Color.Red ("Error")) (by decide),
    (claim_c8 MessageType.FATAL_ERROR ("m") none true (cmMessenger.mk false false false false)
        ("m") (cmListFileBacktrace.mk ("") (""))).2.2.1 (by decide),
    (claim_c8 MessageType.FATAL_ERROR ("m") none true (cmMessenger.mk false false false false)
        ("m") (cmListFileBacktrace.mk ("") (""))).2.2.2.1 rfl⟩

/-- C3: whenever the Classifier changes the requested severity, the
Filter is bypassed and the message is rendered and dispatched with the
changed severity; in particular with dev-warnings-as-errors off and
dev-warning suppression on, a requested developer error is demoted to a
developer warning and still emitted with developer-warning content,
while a directly requested developer warning is suppressed. -/
theorem claim_c3 :
    (∀ (m : cmMessenger) (t : MessageType) (text : String) (bt : cmListFileBacktrace)
        (cap : Option String),
      m.ConvertMessageType t ≠ t →
        m.IssueMessage t text bt cap = m.DisplayMessage (m.ConvertMessageType t) text bt cap
        ∧ messageCount (m.IssueMessage t text bt cap) = 1)
    ∧ (∀ (b c : Bool) (text : String) (bt : cmListFileBacktrace) (cap : Option String),
      (cmMessenger.mk false true b c).ConvertMessageType MessageType.AUTHOR_ERROR =
          MessageType.AUTHOR_WARNING
      ∧ (cmMessenger.mk false true b c).IssueMessage MessageType.AUTHOR_ERROR text bt cap =
          (cmMessenger.mk false true b c).DisplayMessage MessageType.AUTHOR_WARNING text bt cap
      ∧ messageCount
          ((cmMessenger.mk false true b c).IssueMessage MessageType.AUTHOR_ERROR text bt cap) = 1
      ∧ (cmMessenger.mk false true b c).IssueMessage MessageType.AUTHOR_WARNING text bt cap =
          []) := by
  constructor
  · intro m t text bt cap h
    have hmain : m.IssueMessage t text bt cap =
        m.DisplayMessage (m.ConvertMessageType t) text bt cap := by
      simp [cmMessenger.IssueMessage, h]
    exact ⟨hmain, by rw [hmain]; exact messageCount_DisplayMessage _ _ _ _ _⟩
  · intro b c text bt cap
    have hconv : (cmMessenger.mk false true b c).ConvertMessageType MessageType.AUTHOR_ERROR =
        MessageType.AUTHOR_WARNING := rfl
    have hch : (cmMessenger.mk false true b c).ConvertMessageType MessageType.AUTHOR_ERROR ≠
        MessageType.AUTHOR_ERROR := by
      rw [hconv]
      decide
    have hmain : (cmMessenger.mk false true b c).IssueMessage MessageType.AUTHOR_ERROR
        text bt cap =
        (cmMessenger.mk false true b c).DisplayMessage MessageType.AUTHOR_WARNING text bt cap := by
      simp [cmMessenger.IssueMessage, hch, hconv]
    refine ⟨hconv, hmain, by rw [hmain]; exact messageCount_DisplayMessage _ _ _ _ _, ?_⟩
    simp [cmMessenger.IssueMessage, cmMessenger.ConvertMessageType,
      cmMessenger.IsMessageTypeVisible]

theorem claim_c3_witness :
    (cmMessenger.mk true false false false).IssueMessage MessageType.AUTHOR_WARNING ("t")
        (cmListFileBacktrace.mk ("") ("")) none =
      (cmMessenger.mk true false false false).DisplayMessage MessageType.AUTHOR_ERROR ("t")
        (cmListFileBacktrace.mk ("") ("")) none
    ∧ messageCount
        ((cmMessenger.mk true false false false).IssueMessage MessageType.AUTHOR_WARNING ("t")
          (cmListFileBacktrace.mk ("") ("")) none) = 1 := by
  have h := claim_c3.1 (cmMessenger.mk true false false false) MessageType.AUTHOR_WARNING ("t")
    (cmListFileBacktrace.mk ("") ("")) none (by decide)
  exact ⟨h.1, h.2⟩

/-- C9: `IssueMessage` produces no output exactly when the request is a
developer warning with escalation off and dev suppression on, or a
deprecation warning with escalation off and deprecation suppression on;
in every other case exactly one message is dispatched. -/
theorem claim_c9 : ∀ (m : cmMessenger) (t : MessageType) (text : String)
      (bt : cmListFileBacktrace) (cap : Option String),
    (m.IssueMessage t text bt cap = [] ↔
      ((t = MessageType.AUTHOR_WARNING ∧ m.devWarningsAsErrors = false ∧
          m.suppressDevWarnings = true)
        ∨ (t = MessageType.DEPRECATION_WARNING ∧ m.deprecatedWarningsAsErrors = false ∧
            m.suppressDeprecatedWarnings = true)))
    ∧ messageCount (m.IssueMessage t text bt cap) =
        (if (t = MessageType.AUTHOR_WARNING ∧ m.devWarningsAsErrors = false ∧
              m.suppressDevWarnings = true)
            ∨ (t = MessageType.DEPRECATION_WARNING ∧ m.deprecatedWarningsAsErrors = false ∧
                m.suppressDeprecatedWarnings = true)
          then 0 else 1) := by
  intro m t text bt cap
  obtain ⟨a, b, c, d⟩ := m
  cases t <;> cases a <;> cases b <;> cases c <;> cases d <;>
    simp [cmMessenger.IssueMessage, cmMessenger.ConvertMessageType,
      cmMessenger.IsMessageTypeVisible, DisplayMessage_ne_nil, messageCount_DisplayMessage,
      messageCount_nil]

/-- C10: with dev-warnings-as-errors on, issuing a developer warning
sets the process-wide error flag (it is escalated and dispatched with
title "Error"); symmetrically for a deprecation warning with
deprecated-warnings-as-errors on. -/
theorem claim_c10 : ∀ (m : cmMessenger) (text : String) (bt : cmListFileBacktrace)
      (cap : Option String),
    (m.devWarningsAsErrors = true →
      SinkEvent.setErrorOccured ∈ m.IssueMessage MessageType.AUTHOR_WARNING text bt cap)
    ∧ (m.deprecatedWarningsAsErrors = true →
      SinkEvent.setErrorOccured ∈ m.IssueMessage MessageType.DEPRECATION_WARNING text bt cap) := by
  intro m text bt cap
  obtain ⟨a, b, c, d⟩ := m
  constructor
  · intro h
    subst h
    simp [cmMessenger.IssueMessage, cmMessenger.ConvertMessageType, DisplayMessage_eq,
      displayMessage]
  · intro h
    subst h
    simp [cmMessenger.IssueMessage, cmMessenger.ConvertMessageType, DisplayMessage_eq,
      displayMessage]

theorem claim_c10_witness :
    SinkEvent.setErrorOccured ∈
      (cmMessenger.mk true false true false).IssueMessage MessageType.AUTHOR_WARNING ("t")
        (cmListFileBacktrace.mk ("") ("")) none
    ∧ SinkEvent.setErrorOccured ∈
      (cmMessenger.mk true false true false).IssueMessage MessageType.DEPRECATION_WARNING ("t")
        (cmListFileBacktrace.mk ("") ("")) none :=
  ⟨(claim_c10 (cmMessenger.mk true false true false) ("t")
      (cmListFileBacktrace.mk ("") ("")) none).1 rfl,
    (claim_c10 (cmMessenger.mk true false true false) ("t")
      (cmListFileBacktrace.mk ("") ("")) none).2 rfl⟩
